import Mathlib

/-!
Verification development for the SceneManager resource-registry and
state-composition layer (SceneManager.cpp).

The C++ source is shallowly embedded as follows.

* The OpenGL device is modelled by GLState: glGenTextures hands out fresh
  texture names sequentially and records them as allocated ("alive");
  glDeleteTextures (never called by the source) would remove a name.
* The texture registry (fields m_textureIDs, a 16-slot C array, and
  m_loadedTextures, an int counter, both declared in SceneManager.h) is
  modelled by a total function Nat -> TextureEntry together with a Nat
  counter; slots the program never wrote hold arbitrary values, exactly as
  an uninitialised C array does.
* std::string comparison via tag.compare(t) == 0 is modelled by String
  equality; GLuint values are Nat, and the GLuint-to-int conversion done by
  FindTextureID is modelled by uintToInt (twos-complement wrap at 2^32).
* The image decoder (stb_image, an external collaborator) is modelled by
  passing the decode outcome, Option DecodedImage, directly to
  CreateGLTexture in place of the file name.
* Floating-point arithmetic is modelled over the reals.
-/

/-- Component triple of floats (glm::vec3), modelled over the reals. -/
structure V3 where
  x : ℝ
  y : ℝ
  z : ℝ


/-- State of the modelled OpenGL device: the next unused texture name and
the list of currently allocated texture names. -/
structure GLState where
  nextName : Nat
  alive : List Nat


/-- Model of glGenTextures(1, &id): returns a fresh, previously unused
texture name and records it as allocated. -/
def glGenTexture (g : GLState) : Nat × GLState :=
  (g.nextName, ⟨g.nextName + 1, g.nextName :: g.alive⟩)

/-- One entry of the texture registry: the struct with fields ID (GLuint)
and tag (std::string) stored in the m_textureIDs array. -/
structure TextureEntry where
  ID : Nat
  tag : String


/-- The SceneManager state relevant to the texture registry: the GL device,
the m_textureIDs array (total function; unwritten slots hold whatever they
hold) and the m_loadedTextures counter. -/
structure SceneState where
  gl : GLState
  m_textureIDs : Nat → TextureEntry
  m_loadedTextures : Nat

/-- State right after the constructor: nothing loaded; the device has
handed out no names yet (names start at 1, since GL texture name 0 is the
reserved default). -/
def initialSceneState : SceneState :=
  ⟨⟨1, []⟩, fun _ => ⟨0, ""⟩, 0⟩

/-- Outcome of a successful image decode (stbi_load): width, height and
channel count of the decoded pixels. -/
structure DecodedImage where
  width : Nat
  height : Nat
  colorChannels : Nat


/-- Embedding of SceneManager::CreateGLTexture (SceneManager.cpp lines
62-126).  The external decode outcome replaces the file-name argument.
On decode failure the method returns false having touched nothing.  On
success it first generates a texture name (glGenTextures) and sets
parameters; if the channel count is 3 (RGB upload) or 4 (RGBA upload) it
registers {ID, tag} at index m_loadedTextures and increments the counter,
returning true; for any other channel count it returns false with the
registry untouched (the generated texture name is leaked, but the registry
is unchanged). -/
def CreateGLTexture (image : Option DecodedImage) (tag : String) (s : SceneState) :
    Bool × SceneState :=
  match image with
  | none => (false, s)
  | some img =>
      let gen := glGenTexture s.gl
      if img.colorChannels = 3 ∨ img.colorChannels = 4 then
        (true,
          { gl := gen.2
            m_textureIDs := Function.update s.m_textureIDs s.m_loadedTextures ⟨gen.1, tag⟩
            m_loadedTextures := s.m_loadedTextures + 1 })
      else
        (false, { s with gl := gen.2 })

/-- Embedding of SceneManager::BindGLTextures (lines 134-142): binds the
texture registered at index i to texture unit i, for every i below
m_loadedTextures.  It only issues GL bind calls, returned here as the list
of (unit, texture name) pairs; the registry is not touched. -/
def BindGLTextures (s : SceneState) : List (Nat × Nat) :=
  (List.range s.m_loadedTextures).map (fun i => (i, (s.m_textureIDs i).ID))

/-- Embedding of SceneManager::DestroyGLTextures (lines 150-156).  The
loop body is glGenTextures(1, &m_textureIDs[i].ID): for each registered
index it GENERATES a fresh texture name and stores it into the ID field of
that slot (the tag field is untouched).  No glDeleteTextures call occurs
and m_loadedTextures is never reset. -/
def DestroyGLTextures (s : SceneState) : SceneState :=
  (List.range s.m_loadedTextures).foldl
    (fun st i =>
      let gen := glGenTexture st.gl
      { st with
        gl := gen.2
        m_textureIDs := Function.update st.m_textureIDs i ⟨gen.1, (st.m_textureIDs i).tag⟩ })
    s

/-- Conversion of a GLuint value to a C int, as in the assignment
textureID = m_textureIDs[index].ID in FindTextureID: reduce modulo 2^32,
then values at or above 2^31 wrap to negative (twos complement). -/
def uintToInt (n : Nat) : Int :=
  if n % 4294967296 < 2147483648 then ((n % 4294967296 : Nat) : Int)
  else ((n % 4294967296 : Nat) : Int) - 4294967296

/-- Loop of SceneManager::FindTextureID (lines 164-182): while
index < m_loadedTextures and not found, compare tags; on the first match
assign the stored ID (GLuint converted to int) to the result.  The fuel
argument is the number of remaining iterations, m_loadedTextures - index. -/
def findIDAux (ids : Nat → TextureEntry) (tag : String) : Nat → Nat → Int
  | _, 0 => -1
  | index, n + 1 =>
      if (ids index).tag = tag then uintToInt (ids index).ID
      else findIDAux ids tag (index + 1) n

/-- Embedding of SceneManager::FindTextureID: returns -1 when no
registered entry bears the tag, otherwise the first matching entries
stored ID as an int. -/
def FindTextureID (s : SceneState) (tag : String) : Int :=
  findIDAux s.m_textureIDs tag 0 s.m_loadedTextures

/-- Loop of SceneManager::FindTextureSlot (lines 190-208): same scan as
FindTextureID but the result is the index (texture slot) of the first
match, or -1. -/
def findSlotAux (ids : Nat → TextureEntry) (tag : String) : Nat → Nat → Int
  | _, 0 => -1
  | index, n + 1 =>
      if (ids index).tag = tag then (index : Int)
      else findSlotAux ids tag (index + 1) n

/-- Embedding of SceneManager::FindTextureSlot. -/
def FindTextureSlot (s : SceneState) (tag : String) : Int :=
  findSlotAux s.m_textureIDs tag 0 s.m_loadedTextures

/-- Material parameter set (struct OBJECT_MATERIAL): ambient colour and
strength, diffuse and specular colours, shininess, and the lookup tag. -/
structure OBJECT_MATERIAL where
  ambientColor : V3
  ambientStrength : ℝ
  diffuseColor : V3
  specularColor : V3
  shininess : ℝ
  tag : String

/-- Loop of SceneManager::FindMaterial (lines 225-240): scan the catalog
in order; at the first entry whose tag matches, copy the five parameter
fields (and only those - the tag field of the output is NOT assigned) into
the callers material record and stop.  The output record is the
reference-passed argument, so it is threaded through. -/
def FindMaterialLoop (mats : List OBJECT_MATERIAL) (tag : String)
    (material : OBJECT_MATERIAL) : OBJECT_MATERIAL :=
  match mats with
  | [] => material
  | m :: rest =>
      if m.tag = tag then
        { material with
          ambientColor := m.ambientColor
          ambientStrength := m.ambientStrength
          diffuseColor := m.diffuseColor
          specularColor := m.specularColor
          shininess := m.shininess }
      else FindMaterialLoop rest tag material

/-- Embedding of SceneManager::FindMaterial (lines 216-243).  Returns the
boolean result of the method together with the final value of the
reference-passed output record.  Mirrors the source exactly: an empty
catalog returns false at once; otherwise the scan loop runs and the method
returns true UNCONDITIONALLY - the bFound flag does not feed the return
value. -/
def FindMaterial (m_objectMaterials : List OBJECT_MATERIAL) (tag : String)
    (material : OBJECT_MATERIAL) : Bool × OBJECT_MATERIAL :=
  if m_objectMaterials.length = 0 then (false, material)
  else (true, FindMaterialLoop m_objectMaterials tag material)

/-- The material catalog populated by SceneManager::DefineObjectMaterials
(lines 383-494), in push_back order, with the exact field values from the
source. -/
def DefineObjectMaterials : List OBJECT_MATERIAL :=
  [ ⟨⟨0.2, 0.2, 0.2⟩, 0.3, ⟨0.2, 0.2, 0.2⟩, ⟨0.5, 0.5, 0.5⟩, 10.0, "metalMaterial"⟩,
    ⟨⟨0.1, 0.1, 0.1⟩, 0.2, ⟨0.2, 0.2, 0.2⟩, ⟨0.1, 0.1, 0.1⟩, 0.3, "woodMaterial"⟩,
    ⟨⟨0.0, 0.0, 0.3⟩, 0.4, ⟨0.0, 0.0, 0.8⟩, ⟨0.5, 0.5, 0.5⟩, 6.0, "plasticMaterial"⟩,
    ⟨⟨0.2, 0.2, 0.2⟩, 0.4, ⟨0.3, 0.3, 0.3⟩, ⟨0.1, 0.1, 0.1⟩, 0.1, "cardMaterial"⟩,
    ⟨⟨0.2, 0.2, 0.2⟩, 0.3, ⟨0.3, 0.3, 0.2⟩, ⟨0.1, 0.1, 0.1⟩, 0.0, "fabricMaterial"⟩,
    ⟨⟨0.3, 0.2, 0.0⟩, 0.5, ⟨0.2, 0.2, 0.1⟩, ⟨0.3, 0.3, 0.3⟩, 2.0, "glossyPencilMaterial"⟩,
    ⟨⟨0.1, 0.1, 0.1⟩, 0.2, ⟨0.2, 0.2, 0.2⟩, ⟨0.0, 0.0, 0.0⟩, 0.0, "pencilLeadMaterial"⟩,
    ⟨⟨0.5, 0.2, 0.3⟩, 0.3, ⟨0.3, 0.15, 0.1⟩, ⟨0.2, 0.2, 0.2⟩, 2.0, "pinkEraserMaterial"⟩,
    ⟨⟨0.1, 0.3, 0.1⟩, 0.4, ⟨0.1, 0.3, 0.1⟩, ⟨0.5, 0.5, 0.5⟩, 6.0, "marbleMaterial"⟩ ]

/-- Model of the uninitialised local OBJECT_MATERIAL declared in
SetShaderMaterial: an arbitrary garbage value standing for whatever the
stack happened to hold. -/
def uninitMaterial : OBJECT_MATERIAL :=
  ⟨⟨0.123, 0.456, 0.789⟩, 0.5, ⟨0.1, 0.2, 0.3⟩, ⟨0.4, 0.5, 0.6⟩, 7.0, "uninitialized"⟩

/- ----------------------------------------------------------------- -/
/- Transform composition (glm, SetTransformations)                   -/
/- ----------------------------------------------------------------- -/

/-- Four-by-four real matrix, the model of glm::mat4. -/
abbrev Mat4 := Matrix (Fin 4) (Fin 4) ℝ

/-- Model of glm::radians: degrees times pi over 180. -/
noncomputable def radians (d : ℝ) : ℝ := d * (Real.pi / 180)

/-- Model of glm::normalize on a vec3: each component divided by the
Euclidean length. -/
noncomputable def glmNormalize (v : V3) : V3 :=
  ⟨v.x / Real.sqrt (v.x * v.x + v.y * v.y + v.z * v.z),
   v.y / Real.sqrt (v.x * v.x + v.y * v.y + v.z * v.z),
   v.z / Real.sqrt (v.x * v.x + v.y * v.y + v.z * v.z)⟩

/-- Core of the glm rotation matrix (Rodrigues form) for cosine c, sine s
and an already normalised axis a.  glm stores matrices column-major; the
mathematical entry at row r, column k below is the glm entry Rotate[k][r],
transcribed from the glm reference implementation of rotate. -/
def rotCore (c s : ℝ) (a : V3) : Mat4 :=
  !![c + (1 - c) * a.x * a.x, (1 - c) * a.y * a.x - s * a.z, (1 - c) * a.z * a.x + s * a.y, 0;
     (1 - c) * a.x * a.y + s * a.z, c + (1 - c) * a.y * a.y, (1 - c) * a.z * a.y - s * a.x, 0;
     (1 - c) * a.x * a.z - s * a.y, (1 - c) * a.y * a.z + s * a.x, c + (1 - c) * a.z * a.z, 0;
     0, 0, 0, 1]

/-- Model of glm::rotate(angle, axis) from glm/gtx/transform.hpp: the
rotation matrix about the normalised axis by the angle (in radians). -/
noncomputable def glmRotate (angle : ℝ) (v : V3) : Mat4 :=
  rotCore (Real.cos angle) (Real.sin angle) (glmNormalize v)

/-- Model of glm::scale(v): the diagonal scaling matrix. -/
def glmScale (v : V3) : Mat4 :=
  !![v.x, 0, 0, 0;
     0, v.y, 0, 0;
     0, 0, v.z, 0;
     0, 0, 0, 1]

/-- Model of glm::translate(v): identity with the translation in the last
column. -/
def glmTranslate (v : V3) : Mat4 :=
  !![1, 0, 0, v.x;
     0, 1, 0, v.y;
     0, 0, 1, v.z;
     0, 0, 0, 1]

/-- The modelView matrix computed by SceneManager::SetTransformations
(lines 267-275): translation * rotationX * rotationY * rotationZ * scale,
each rotation built by glm::rotate from the degree angle converted by
glm::radians, about the axes (1,0,0), (0,1,0), (0,0,1) respectively. -/
noncomputable def modelViewMatrix (scaleXYZ : V3) (XrotationDegrees YrotationDegrees ZrotationDegrees : ℝ)
    (positionXYZ : V3) : Mat4 :=
  glmTranslate positionXYZ *
    glmRotate (radians XrotationDegrees) ⟨1, 0, 0⟩ *
    glmRotate (radians YrotationDegrees) ⟨0, 1, 0⟩ *
    glmRotate (radians ZrotationDegrees) ⟨0, 0, 1⟩ *
    glmScale scaleXYZ

/- ----------------------------------------------------------------- -/
/- Spec-side transform definitions (for the refinement claims C5/C6) -/
/- ----------------------------------------------------------------- -/

/-- Written from the spec words: rotation about the world X axis by theta
radians (standard rotation matrix). -/
noncomputable def specRotateX (t : ℝ) : Mat4 :=
  !![1, 0, 0, 0;
     0, Real.cos t, -Real.sin t, 0;
     0, Real.sin t, Real.cos t, 0;
     0, 0, 0, 1]

/-- Written from the spec words: rotation about the world Y axis by theta
radians. -/
noncomputable def specRotateY (t : ℝ) : Mat4 :=
  !![Real.cos t, 0, Real.sin t, 0;
     0, 1, 0, 0;
     -Real.sin t, 0, Real.cos t, 0;
     0, 0, 0, 1]

/-- Written from the spec words: rotation about the world Z axis by theta
radians. -/
noncomputable def specRotateZ (t : ℝ) : Mat4 :=
  !![Real.cos t, -Real.sin t, 0, 0;
     Real.sin t, Real.cos t, 0, 0;
     0, 0, 1, 0;
     0, 0, 0, 1]

/-- Written from the spec words: Scale(scale), the diagonal scale matrix. -/
def specScale (v : V3) : Mat4 :=
  !![v.x, 0, 0, 0;
     0, v.y, 0, 0;
     0, 0, v.z, 0;
     0, 0, 0, 1]

/-- Written from the spec words: Translate(position). -/
def specTranslate (v : V3) : Mat4 :=
  !![1, 0, 0, v.x;
     0, 1, 0, v.y;
     0, 0, 1, v.z;
     0, 0, 0, 1]

/-- Written from the spec words: a 4x4 model matrix applied to a 3D point
(homogeneous coordinate 1), yielding the transformed 3D point. -/
def specApplyPoint (M : Mat4) (p : V3) : V3 :=
  ⟨M.mulVec ![p.x, p.y, p.z, 1] 0,
   M.mulVec ![p.x, p.y, p.z, 1] 1,
   M.mulVec ![p.x, p.y, p.z, 1] 2⟩

/- ----------------------------------------------------------------- -/
/- Shader state sink (ShaderManager) model                            -/
/- ----------------------------------------------------------------- -/

/-- A value uploaded to one shader uniform through the external
ShaderManager: matrix, colour, vector, integer, float or sampler index.
The setIntValue calls that receive C++ bool arguments are modelled with
the implicit bool-to-int conversion (false = 0, true = 1). -/
inductive UniformValue where
  | mat4 (m : Mat4)
  | vec4 (r g b a : ℝ)
  | vec3 (v : V3)
  | vec2 (u v : ℝ)
  | intVal (i : Int)
  | floatVal (x : ℝ)
  | sampler (i : Int)

/-- One named uniform write issued to the shader sink. -/
structure UniformWrite where
  name : String
  value : UniformValue

/-- Uniform name constant g_ModelName from the anonymous namespace. -/
def g_ModelName : String := "model"

/-- Uniform name constant g_ColorValueName. -/
def g_ColorValueName : String := "objectColor"

/-- Uniform name constant g_TextureValueName. -/
def g_TextureValueName : String := "objectTexture"

/-- Uniform name constant g_UseTextureName. -/
def g_UseTextureName : String := "bUseTexture"

/-- Each SceneManager shader-bridge method is modelled as a function of
the shader-sink binding state (bound = m_pShaderManager not NULL) that
returns the sequence of uniform writes it performs, or none when the
method dereferences a NULL m_pShaderManager (undefined behaviour, a
crash).  A normal no-op return is some []. -/
abbrev ShaderOutcome := Option (List UniformWrite)

/-- Embedding of SceneManager::SetTransformations (lines 251-281):
computes the modelView matrix and, only if the shader sink is bound,
uploads it under g_ModelName; with an unbound sink it returns having
written nothing. -/
noncomputable def SetTransformations (shaderBound : Bool) (scaleXYZ : V3)
    (XrotationDegrees YrotationDegrees ZrotationDegrees : ℝ)
    (positionXYZ : V3) : ShaderOutcome :=
  if shaderBound then
    some [⟨g_ModelName, UniformValue.mat4
      (modelViewMatrix scaleXYZ XrotationDegrees YrotationDegrees ZrotationDegrees
        positionXYZ)⟩]
  else some []

/-- Embedding of SceneManager::SetShaderColor (lines 289-308): if the sink
is bound, writes bUseTexture = 0 (false) then the colour; otherwise
returns without writing. -/
def SetShaderColor (shaderBound : Bool) (redColorValue greenColorValue blueColorValue
    alphaValue : ℝ) : ShaderOutcome :=
  if shaderBound then
    some [⟨g_UseTextureName, UniformValue.intVal 0⟩,
          ⟨g_ColorValueName, UniformValue.vec4 redColorValue greenColorValue blueColorValue
            alphaValue⟩]
  else some []

/-- Embedding of SceneManager::SetShaderTexture (lines 316-327): if the
sink is bound, writes bUseTexture = 1 (true) and the sampler slot obtained
from FindTextureSlot; otherwise returns without writing. -/
def SetShaderTexture (shaderBound : Bool) (s : SceneState) (textureTag : String) :
    ShaderOutcome :=
  if shaderBound then
    some [⟨g_UseTextureName, UniformValue.intVal 1⟩,
          ⟨g_TextureValueName, UniformValue.sampler (FindTextureSlot s textureTag)⟩]
  else some []

/-- Embedding of SceneManager::SetTextureUVScale (lines 335-341). -/
def SetTextureUVScale (shaderBound : Bool) (u v : ℝ) : ShaderOutcome :=
  if shaderBound then some [⟨"UVscale", UniformValue.vec2 u v⟩] else some []

/-- Embedding of SceneManager::SetShaderMaterial (lines 349-367).  Unlike
the other four bridge methods, the five uniform writes here are NOT
guarded by a NULL check on m_pShaderManager: when the catalog is non-empty
and FindMaterial returned true, the method writes through the sink pointer
unconditionally, so an unbound sink is dereferenced (outcome none).  The
local material record starts uninitialised (argument uninit). -/
def SetShaderMaterial (shaderBound : Bool) (m_objectMaterials : List OBJECT_MATERIAL)
    (materialTag : String) (uninit : OBJECT_MATERIAL) : ShaderOutcome :=
  if 0 < m_objectMaterials.length then
    let r := FindMaterial m_objectMaterials materialTag uninit
    if r.1 = true then
      if shaderBound then
        some [⟨"material.ambientColor", UniformValue.vec3 r.2.ambientColor⟩,
              ⟨"material.ambientStrength", UniformValue.floatVal r.2.ambientStrength⟩,
              ⟨"material.diffuseColor", UniformValue.vec3 r.2.diffuseColor⟩,
              ⟨"material.specularColor", UniformValue.vec3 r.2.specularColor⟩,
              ⟨"material.shininess", UniformValue.floatVal r.2.shininess⟩]
      else none
    else some []
  else some []

/- ----------------------------------------------------------------- -/
/- Concrete scene states used by witnesses and counterexamples        -/
/- ----------------------------------------------------------------- -/

/-- A successfully decodable 3-channel test image. -/
def testImg3 : DecodedImage := ⟨2, 2, 3⟩

/-- A successfully decoded test image with an unsupported channel count. -/
def testImg5 : DecodedImage := ⟨2, 2, 5⟩

/-- Registry holding one texture: the state after one successful load,
tag a, device name 1. -/
def demoOneTexture : SceneState :=
  (CreateGLTexture (some testImg3) "a" initialSceneState).2

/-- Registry after loading textures tagged a, b, then a again (the
duplicate-tag scenario of the spec); BindGLTextures does not change the
registry, so this is also the state after BindAll. -/
def demoABA : SceneState :=
  (CreateGLTexture (some testImg3) "a"
    ((CreateGLTexture (some testImg3) "b"
      ((CreateGLTexture (some testImg3) "a" initialSceneState).2)).2)).2

/-- The state after n successful 3-channel loads, all under tag t. -/
def loadedN : Nat → SceneState
  | 0 => initialSceneState
  | n + 1 => (CreateGLTexture (some testImg3) "t" (loadedN n)).2

/-- Registry already holding 16 entries (the device-defined maximum). -/
def demo16 : SceneState := loadedN 16

/-- Modelled from the spec: the m_textureIDs array is declared in
SceneManager.h, which is not part of the sources; the spec (and the
comments at lines 132-133 and 539-542 of SceneManager.cpp) fix its
capacity at 16 texture slots. -/
def MAX_TEXTURE_SLOTS : Nat := 16

/- ----------------------------------------------------------------- -/
/- Helper lemmas about the linear-scan loops                          -/
/- ----------------------------------------------------------------- -/

/-- If every index in the scanned window misses the tag, the slot scan
returns -1. -/
theorem findSlotAux_miss (ids : Nat → TextureEntry) (tag : String) :
    ∀ (n index : Nat), (∀ m, index ≤ m → m < index + n → (ids m).tag ≠ tag) →
      findSlotAux ids tag index n = -1 := by
  intro n
  induction n with
  | zero => intro index _; rfl
  | succ k ih =>
      intro index h
      rw [findSlotAux, if_neg (h index le_rfl (by omega))]
      exact ih (index + 1) (fun m h1 h2 => h m (by omega) (by omega))

/-- If every index in the scanned window misses the tag, the ID scan
returns -1. -/
theorem findIDAux_miss (ids : Nat → TextureEntry) (tag : String) :
    ∀ (n index : Nat), (∀ m, index ≤ m → m < index + n → (ids m).tag ≠ tag) →
      findIDAux ids tag index n = -1 := by
  intro n
  induction n with
  | zero => intro index _; rfl
  | succ k ih =>
      intro index h
      rw [findIDAux, if_neg (h index le_rfl (by omega))]
      exact ih (index + 1) (fun m h1 h2 => h m (by omega) (by omega))

/-- If index j in the scanned window bears the tag and every earlier index
in the window misses it, the slot scan returns j. -/
theorem findSlotAux_hit (ids : Nat → TextureEntry) (tag : String) :
    ∀ (n index j : Nat), index ≤ j → j < index + n → (ids j).tag = tag →
      (∀ m, index ≤ m → m < j → (ids m).tag ≠ tag) →
      findSlotAux ids tag index n = (j : Int) := by
  intro n
  induction n with
  | zero => intro index j h1 h2 _ _; omega
  | succ k ih =>
      intro index j h1 h2 h3 h4
      by_cases hc : (ids index).tag = tag
      · have hj : j = index := by
          by_contra hne
          exact h4 index le_rfl (lt_of_le_of_ne h1 (Ne.symm hne)) hc
        subst hj
        rw [findSlotAux, if_pos hc]
      · have hij : index < j := by
          rcases lt_or_eq_of_le h1 with h | h
          · exact h
          · exact absurd (h ▸ h3) hc
        rw [findSlotAux, if_neg hc]
        exact ih (index + 1) j hij (by omega) h3 (fun m hm1 hm2 => h4 m (by omega) hm2)

/-- If index j in the scanned window bears the tag and every earlier index
in the window misses it, the ID scan returns the stored ID at j (as int). -/
theorem findIDAux_hit (ids : Nat → TextureEntry) (tag : String) :
    ∀ (n index j : Nat), index ≤ j → j < index + n → (ids j).tag = tag →
      (∀ m, index ≤ m → m < j → (ids m).tag ≠ tag) →
      findIDAux ids tag index n = uintToInt (ids j).ID := by
  intro n
  induction n with
  | zero => intro index j h1 h2 _ _; omega
  | succ k ih =>
      intro index j h1 h2 h3 h4
      by_cases hc : (ids index).tag = tag
      · have hj : j = index := by
          by_contra hne
          exact h4 index le_rfl (lt_of_le_of_ne h1 (Ne.symm hne)) hc
        subst hj
        rw [findIDAux, if_pos hc]
      · have hij : index < j := by
          rcases lt_or_eq_of_le h1 with h | h
          · exact h
          · exact absurd (h ▸ h3) hc
        rw [findIDAux, if_neg hc]
        exact ih (index + 1) j hij (by omega) h3 (fun m hm1 hm2 => h4 m (by omega) hm2)

/-- FindMaterial returns true on every non-empty catalog, whatever the
tag: the source consults only the catalog size for its return value. -/
theorem FindMaterial_fst_of_ne_nil (mats : List OBJECT_MATERIAL) (tag : String)
    (material : OBJECT_MATERIAL) (h : mats ≠ []) :
    (FindMaterial mats tag material).1 = true := by
  cases mats with
  | nil => exact absurd rfl h
  | cons m rest => rfl

/-- Normalising the unit X axis is the identity. -/
theorem glmNormalize_unitX : glmNormalize ⟨1, 0, 0⟩ = ⟨1, 0, 0⟩ := by
  unfold glmNormalize
  norm_num

/-- Normalising the unit Y axis is the identity. -/
theorem glmNormalize_unitY : glmNormalize ⟨0, 1, 0⟩ = ⟨0, 1, 0⟩ := by
  unfold glmNormalize
  norm_num

/-- Normalising the unit Z axis is the identity. -/
theorem glmNormalize_unitZ : glmNormalize ⟨0, 0, 1⟩ = ⟨0, 0, 1⟩ := by
  unfold glmNormalize
  norm_num

/-- The glm rotation about axis (1,0,0) is the standard world-X rotation
matrix. -/
theorem glmRotate_unitX (t : ℝ) : glmRotate t ⟨1, 0, 0⟩ = specRotateX t := by
  rw [glmRotate, glmNormalize_unitX]
  unfold rotCore specRotateX
  ext i j
  fin_cases i <;> fin_cases j <;> simp

/-- The glm rotation about axis (0,1,0) is the standard world-Y rotation
matrix. -/
theorem glmRotate_unitY (t : ℝ) : glmRotate t ⟨0, 1, 0⟩ = specRotateY t := by
  rw [glmRotate, glmNormalize_unitY]
  unfold rotCore specRotateY
  ext i j
  fin_cases i <;> fin_cases j <;> simp

/-- The glm rotation about axis (0,0,1) is the standard world-Z rotation
matrix. -/
theorem glmRotate_unitZ (t : ℝ) : glmRotate t ⟨0, 0, 1⟩ = specRotateZ t := by
  rw [glmRotate, glmNormalize_unitZ]
  unfold rotCore specRotateZ
  ext i j
  fin_cases i <;> fin_cases j <;> simp

/-- The glm translate matrix coincides with the spec Translate matrix. -/
theorem glmTranslate_eq_spec (v : V3) : glmTranslate v = specTranslate v := rfl

/-- The glm scale matrix coincides with the spec Scale matrix. -/
theorem glmScale_eq_spec (v : V3) : glmScale v = specScale v := rfl

/-- Ninety degrees in radians is pi over two. -/
theorem radians_ninety : radians 90 = Real.pi / 2 := by
  unfold radians
  ring

/-- Zero degrees in radians is zero. -/
theorem radians_zero : radians 0 = 0 := by
  unfold radians
  ring

/- ----------------------------------------------------------------- -/
/- Claim theorems                                                     -/
/- ----------------------------------------------------------------- -/

/-- C1 (code evaluated at the failing input): on the non-empty material
catalog populated by DefineObjectMaterials and a tag matching no entry,
FindMaterial returns TRUE while leaving the output record untouched.  The
claim (and the spec invariant) require failure (false) to be reported; the
source returns true for every non-empty catalog because the bFound flag
never feeds the return value, and the caller SetShaderMaterial then treats
the untouched (uninitialised) record as a found material. -/
theorem FindMaterial_nonempty_miss_returns_true :
    FindMaterial DefineObjectMaterials "missing" uninitMaterial = (true, uninitMaterial) := by
  rfl

/-- C2 (code evaluated at the failing input): with one texture loaded
(device name 1), DestroyGLTextures leaves the registry count at 1 (not 0)
and frees nothing: texture 1 is still allocated, and a further name 2 has
been GENERATED into the slot, because the loop body calls glGenTextures
instead of glDeleteTextures and m_loadedTextures is never reset. -/
theorem DestroyGLTextures_frees_nothing :
    (DestroyGLTextures demoOneTexture).m_loadedTextures = 1 ∧
    (DestroyGLTextures demoOneTexture).gl.alive = [2, 1] ∧
    1 ∈ (DestroyGLTextures demoOneTexture).gl.alive := by
  decide

/-- C7: if the decode fails, or the decoded channel count is neither 3 nor
4, CreateGLTexture returns failure and the registry is unchanged: the
entry count and every slot of the registry array are exactly as before the
call. -/
theorem CreateGLTexture_failure_no_mutation (s : SceneState) (image : Option DecodedImage)
    (tag : String)
    (h : image = none ∨ ∀ img, image = some img →
      img.colorChannels ≠ 3 ∧ img.colorChannels ≠ 4) :
    (CreateGLTexture image tag s).1 = false ∧
    (CreateGLTexture image tag s).2.m_loadedTextures = s.m_loadedTextures ∧
    ∀ k, (CreateGLTexture image tag s).2.m_textureIDs k = s.m_textureIDs k := by
  cases image with
  | none => exact ⟨rfl, rfl, fun _ => rfl⟩
  | some img =>
      have hc : ¬(img.colorChannels = 3 ∨ img.colorChannels = 4) := by
        rcases h with h | h
        · exact absurd h (by simp)
        · obtain ⟨h3, h4⟩ := h img rfl
          tauto
      simp [CreateGLTexture, hc]

/-- C7 witness: a successfully decoded 5-channel image is rejected with
the registry untouched. -/
theorem CreateGLTexture_failure_no_mutation_witness :
    (CreateGLTexture (some testImg5) "w" initialSceneState).1 = false ∧
    (CreateGLTexture (some testImg5) "w" initialSceneState).2.m_loadedTextures =
      initialSceneState.m_loadedTextures :=
  ⟨(CreateGLTexture_failure_no_mutation initialSceneState (some testImg5) "w"
      (Or.inr (fun img himg => by injection himg with h; subst h; exact ⟨by decide, by decide⟩))).1,
   (CreateGLTexture_failure_no_mutation initialSceneState (some testImg5) "w"
      (Or.inr (fun img himg => by injection himg with h; subst h; exact ⟨by decide, by decide⟩))).2.1⟩

/-- C8: on a tag borne by no registered entry, FindTextureID and
FindTextureSlot both return the sentinel -1.  Both methods are embedded as
pure functions of the state - matching the source, which only reads - so
neither mutates the registry, and the scans are total (no throw). -/
theorem Find_unregistered_returns_sentinel (s : SceneState) (tag : String)
    (h : ∀ i, i < s.m_loadedTextures → (s.m_textureIDs i).tag ≠ tag) :
    FindTextureID s tag = -1 ∧ FindTextureSlot s tag = -1 := by
  constructor
  · exact findIDAux_miss s.m_textureIDs tag s.m_loadedTextures 0
      (fun m _ h2 => h m (by omega))
  · exact findSlotAux_miss s.m_textureIDs tag s.m_loadedTextures 0
      (fun m _ h2 => h m (by omega))

/-- C8 witness: the three-entry registry holds no tag zzz, and both
lookups return -1 on it. -/
theorem Find_unregistered_returns_sentinel_witness :
    FindTextureID demoABA "zzz" = -1 ∧ FindTextureSlot demoABA "zzz" = -1 :=
  Find_unregistered_returns_sentinel demoABA "zzz" (by decide)

/-- C9: lookups return the first (smallest-index) match, and a load never
overwrites an existing registry entry; concretely, after loading tags a,
b, a the registry holds 3 entries and FindTextureSlot of a is 0. -/
theorem FindTextureSlot_first_match_no_overwrite :
    (∀ (s : SceneState) (tag : String) (i j : Nat), i < j → j < s.m_loadedTextures →
        (s.m_textureIDs i).tag = tag → (s.m_textureIDs j).tag = tag →
        (∀ k, k < i → (s.m_textureIDs k).tag ≠ tag) →
        FindTextureSlot s tag = (i : Int)) ∧
    (∀ (s : SceneState) (image : Option DecodedImage) (tag : String) (k : Nat),
        k < s.m_loadedTextures →
        (CreateGLTexture image tag s).2.m_textureIDs k = s.m_textureIDs k) ∧
    FindTextureSlot demoABA "a" = 0 ∧ demoABA.m_loadedTextures = 3 := by
  refine ⟨?_, ?_, by decide, by decide⟩
  · intro s tag i j hij hj hti htj hmin
    exact findSlotAux_hit s.m_textureIDs tag s.m_loadedTextures 0 i (Nat.zero_le i)
      (by omega) hti (fun m _ hm => hmin m hm)
  · intro s image tag k hk
    cases image with
    | none => rfl
    | some img =>
        by_cases hc : img.colorChannels = 3 ∨ img.colorChannels = 4
        · simp [CreateGLTexture, hc,
            Function.update_noteq (show k ≠ s.m_loadedTextures by omega)]
        · simp [CreateGLTexture, hc]

/-- C9 witness: in the a, b, a registry the tag a occurs at indices 0 and
2, and the scan returns the smaller index 0. -/
theorem FindTextureSlot_first_match_witness :
    FindTextureSlot demoABA "a" = (0 : Int) :=
  FindTextureSlot_first_match_no_overwrite.1 demoABA "a" 0 2 (by decide) (by decide)
    (by decide) (by decide) (fun k hk => absurd hk (Nat.not_lt_zero k))

/-- C3 counterexample: with the shader sink unbound and the non-empty
catalog from DefineObjectMaterials, SetShaderMaterial does NOT no-op: its
uniform writes are not guarded by the NULL check the other four bridge
methods have, so the unbound sink is dereferenced (outcome none, a crash,
rather than a normal empty-write return some []). -/
theorem SetShaderMaterial_unbound_sink_crashes :
    SetShaderMaterial false DefineObjectMaterials "metalMaterial" uninitMaterial = none ∧
    SetShaderMaterial false DefineObjectMaterials "metalMaterial" uninitMaterial ≠ some [] := by
  have h0 : SetShaderMaterial false DefineObjectMaterials "metalMaterial" uninitMaterial =
      none := rfl
  rw [h0]
  exact ⟨rfl, by simp⟩

/-- C3 (amended): with an unbound shader sink, SetTransformations,
SetShaderColor, SetShaderTexture and SetTextureUVScale perform no uniform
write and return normally; SetShaderMaterial does so only when the
material catalog is empty - with any non-empty catalog it dereferences the
unbound sink. -/
theorem ShaderBridge_unbound_sink_behaviour :
    (∀ (scaleXYZ : V3) (xr yr zr : ℝ) (positionXYZ : V3),
        SetTransformations false scaleXYZ xr yr zr positionXYZ = some []) ∧
    (∀ r g b a : ℝ, SetShaderColor false r g b a = some []) ∧
    (∀ (s : SceneState) (tag : String), SetShaderTexture false s tag = some []) ∧
    (∀ u v : ℝ, SetTextureUVScale false u v = some []) ∧
    (∀ (tag : String) (uninit : OBJECT_MATERIAL),
        SetShaderMaterial false [] tag uninit = some []) ∧
    (∀ (mats : List OBJECT_MATERIAL) (tag : String) (uninit : OBJECT_MATERIAL),
        mats ≠ [] → SetShaderMaterial false mats tag uninit = none) := by
  refine ⟨fun _ _ _ _ _ => rfl, fun _ _ _ _ => rfl, fun _ _ => rfl, fun _ _ => rfl,
    fun _ _ => rfl, ?_⟩
  intro mats tag uninit h
  simp [SetShaderMaterial, List.length_pos.mpr h,
    FindMaterial_fst_of_ne_nil mats tag uninit h]

/-- C3 witness: the unguarded branch of SetShaderMaterial is reached on a
concrete non-empty catalog, whatever the tag. -/
theorem ShaderBridge_unbound_sink_behaviour_witness :
    SetShaderMaterial false DefineObjectMaterials "x" uninitMaterial = none :=
  ShaderBridge_unbound_sink_behaviour.2.2.2.2.2 DefineObjectMaterials "x" uninitMaterial
    (by simp [DefineObjectMaterials])

/-- C4 counterexample: a registry already holding the device maximum of 16
entries accepts a further successful load - nothing rejects or asserts -
and the entry count reaches 17, beyond the 16-slot array. -/
theorem CreateGLTexture_seventeenth_load_accepted :
    demo16.m_loadedTextures = MAX_TEXTURE_SLOTS ∧
    (CreateGLTexture (some testImg3) "t" demo16).1 = true ∧
    (CreateGLTexture (some testImg3) "t" demo16).2.m_loadedTextures = 17 ∧
    MAX_TEXTURE_SLOTS < (CreateGLTexture (some testImg3) "t" demo16).2.m_loadedTextures := by
  decide

/-- C4 (amended): CreateGLTexture performs no capacity check at all: every
successful load, from any state whatsoever (including one already holding
16 entries), writes the new entry at the index equal to the current count
and increments the count.  Staying within the 16-slot bound is purely a
caller obligation. -/
theorem CreateGLTexture_no_capacity_check (s : SceneState) (img : DecodedImage) (tag : String)
    (h : img.colorChannels = 3 ∨ img.colorChannels = 4) :
    (CreateGLTexture (some img) tag s).1 = true ∧
    (CreateGLTexture (some img) tag s).2.m_loadedTextures = s.m_loadedTextures + 1 ∧
    (CreateGLTexture (some img) tag s).2.m_textureIDs s.m_loadedTextures =
      ⟨s.gl.nextName, tag⟩ := by
  simp [CreateGLTexture, h, glGenTexture]

/-- C4 witness: applied at the full 16-entry registry, the load succeeds
and the count leaves the capacity. -/
theorem CreateGLTexture_no_capacity_check_witness :
    (CreateGLTexture (some testImg3) "t" demo16).2.m_loadedTextures =
      demo16.m_loadedTextures + 1 :=
  (CreateGLTexture_no_capacity_check demo16 testImg3 "t" (Or.inl rfl)).2.1

/-- C5: for every scale, rotation-degree triple and position,
SetTransformations with a bound sink pushes to the model uniform exactly
the matrix Translate(position) * RotateX * RotateY * RotateZ *
Scale(scale), where the rotations are the standard world-axis rotation
matrices at the degree angles converted to radians. -/
theorem SetTransformations_pushes_composition (scaleXYZ : V3) (xr yr zr : ℝ)
    (positionXYZ : V3) :
    SetTransformations true scaleXYZ xr yr zr positionXYZ =
      some [⟨g_ModelName, UniformValue.mat4
        (specTranslate positionXYZ * specRotateX (radians xr) * specRotateY (radians yr) *
          specRotateZ (radians zr) * specScale scaleXYZ)⟩] := by
  simp [SetTransformations, modelViewMatrix, glmRotate_unitX, glmRotate_unitY,
    glmRotate_unitZ, glmTranslate_eq_spec, glmScale_eq_spec]

/-- C6 counterexample: at scale (1,2,1), rotations (0,90,0) degrees,
position (1,0,0), the composed matrix maps the point (1,0,0) to (1,0,-1),
not to (1,0,-2) as the claim states (the difference, a full unit in z, is
far beyond floating tolerance). -/
theorem Compose_example_point_maps_to_one_zero_negone :
    specApplyPoint (modelViewMatrix ⟨1, 2, 1⟩ 0 90 0 ⟨1, 0, 0⟩) ⟨1, 0, 0⟩ = ⟨1, 0, -1⟩ ∧
    specApplyPoint (modelViewMatrix ⟨1, 2, 1⟩ 0 90 0 ⟨1, 0, 0⟩) ⟨1, 0, 0⟩ ≠ ⟨1, 0, -2⟩ := by
  have h : specApplyPoint (modelViewMatrix ⟨1, 2, 1⟩ 0 90 0 ⟨1, 0, 0⟩) ⟨1, 0, 0⟩ =
      ⟨1, 0, -1⟩ := by
    unfold specApplyPoint modelViewMatrix
    rw [glmRotate_unitX, glmRotate_unitY, glmRotate_unitZ, radians_zero, radians_ninety]
    simp [specRotateX, specRotateY, specRotateZ, glmTranslate, glmScale,
      Real.cos_pi_div_two, Real.sin_pi_div_two, Matrix.mulVec, Matrix.mul_apply,
      Matrix.dotProduct, Fin.sum_univ_four, V3.mk.injEq, Matrix.vecHead, Matrix.vecTail]
  refine ⟨h, ?_⟩
  rw [h]
  intro hc
  have hz := congrArg V3.z hc
  norm_num at hz

/-- C6 (amended): with scale (2,1,1) - the scale named in the first half
of the same spec sentence - rotY = 90 degrees and position (1,0,0), the
composed matrix does map the point (1,0,0) to (1,0,-2). -/
theorem Compose_scale211_point_maps_to_one_zero_negtwo :
    specApplyPoint (modelViewMatrix ⟨2, 1, 1⟩ 0 90 0 ⟨1, 0, 0⟩) ⟨1, 0, 0⟩ = ⟨1, 0, -2⟩ := by
  unfold specApplyPoint modelViewMatrix
  rw [glmRotate_unitX, glmRotate_unitY, glmRotate_unitZ, radians_zero, radians_ninety]
  simp [specRotateX, specRotateY, specRotateZ, glmTranslate, glmScale,
    Real.cos_pi_div_two, Real.sin_pi_div_two, Matrix.mulVec, Matrix.mul_apply,
    Matrix.dotProduct, Fin.sum_univ_four, V3.mk.injEq, Matrix.vecHead, Matrix.vecTail]

/-- Registry state whose single entry stores the legal GLuint handle
4294967295, whose conversion to int is -1. -/
def badHandleState : SceneState :=
  ⟨⟨2, [4294967295]⟩, Function.update (fun _ => ⟨0, ""⟩) 0 ⟨4294967295, "x"⟩, 1⟩

/-- C10 counterexample: on a registry whose registered handle is the
GLuint 4294967295 (int conversion -1), FindTextureID returns -1 for the
registered tag while FindTextureSlot returns 0, so the two lookups do NOT
agree on the sentinel: the stored handle collides with the not-found
value. -/
theorem Find_lookups_sentinel_collision :
    FindTextureID badHandleState "x" = -1 ∧ FindTextureSlot badHandleState "x" = 0 ∧
    ¬(FindTextureID badHandleState "x" = -1 ↔ FindTextureSlot badHandleState "x" = -1) := by
  decide

/-- C10 (amended): on every registry state whose stored handles all
convert to an int other than -1 (true of every handle below 2^31, hence of
everything the loader in this model ever stores), FindTextureID returns -1
exactly when FindTextureSlot does, and whenever FindTextureSlot returns a
slot index j, FindTextureID returns precisely the handle stored at index
j: both scans agree on the same first-matching entry. -/
theorem Find_lookups_agree (s : SceneState) (tag : String)
    (hIDs : ∀ i, i < s.m_loadedTextures → uintToInt (s.m_textureIDs i).ID ≠ -1) :
    (FindTextureID s tag = -1 ↔ FindTextureSlot s tag = -1) ∧
    (∀ j : Nat, FindTextureSlot s tag = (j : Int) →
      FindTextureID s tag = uintToInt (s.m_textureIDs j).ID) := by
  by_cases hex : ∃ i, i < s.m_loadedTextures ∧ (s.m_textureIDs i).tag = tag
  · have hj0lt := (Nat.find_spec hex).1
    have hj0tag := (Nat.find_spec hex).2
    have hminTag : ∀ m, 0 ≤ m → m < Nat.find hex → (s.m_textureIDs m).tag ≠ tag := by
      intro m _ hm ht
      exact Nat.find_min hex hm ⟨lt_trans hm hj0lt, ht⟩
    have hID : FindTextureID s tag = uintToInt (s.m_textureIDs (Nat.find hex)).ID :=
      findIDAux_hit s.m_textureIDs tag s.m_loadedTextures 0 (Nat.find hex)
        (Nat.zero_le _) (by omega) hj0tag hminTag
    have hSlot : FindTextureSlot s tag = ((Nat.find hex : Nat) : Int) :=
      findSlotAux_hit s.m_textureIDs tag s.m_loadedTextures 0 (Nat.find hex)
        (Nat.zero_le _) (by omega) hj0tag hminTag
    have hIDne : FindTextureID s tag ≠ -1 := by
      rw [hID]
      exact hIDs (Nat.find hex) hj0lt
    have hSlotne : FindTextureSlot s tag ≠ -1 := by
      rw [hSlot]
      omega
    refine ⟨⟨fun h => absurd h hIDne, fun h => absurd h hSlotne⟩, ?_⟩
    intro j hj
    rw [hSlot] at hj
    have hjeq : Nat.find hex = j := by exact_mod_cast hj
    rw [hID, hjeq]
  · have hmiss : ∀ m, 0 ≤ m → m < 0 + s.m_loadedTextures → (s.m_textureIDs m).tag ≠ tag := by
      intro m _ hm ht
      exact hex ⟨m, by omega, ht⟩
    have hID : FindTextureID s tag = -1 :=
      findIDAux_miss s.m_textureIDs tag s.m_loadedTextures 0 hmiss
    have hSlot : FindTextureSlot s tag = -1 :=
      findSlotAux_miss s.m_textureIDs tag s.m_loadedTextures 0 hmiss
    refine ⟨by rw [hID, hSlot], ?_⟩
    intro j hj
    rw [hSlot] at hj
    exact absurd hj (by omega)

/-- C10 witness: the three-entry registry stores the handles 1, 2, 3, none
of which converts to -1, and the two lookups agree there. -/
theorem Find_lookups_agree_witness :
    (FindTextureID demoABA "a" = -1 ↔ FindTextureSlot demoABA "a" = -1) ∧
    FindTextureID demoABA "a" = uintToInt (demoABA.m_textureIDs 0).ID :=
  ⟨(Find_lookups_agree demoABA "a" (by decide)).1,
   (Find_lookups_agree demoABA "a" (by decide)).2 0 (by decide)⟩
